import Mathlib

/-!
Shallow embedding of the quote-to-order construction core
(`src/request/_request.ts` of tokenlon-mmsk) together with theorems
checking the natural-language specification against it.

Conventions of the embedding:
* decimal (BigNumber) arithmetic is modelled by `ℚ`;
* JavaScript `undefined`/absent values are modelled by `Option`;
* code that can `throw` is modelled in `Except String`;
* external collaborators (validators, quoter, per-protocol builders)
  are abstract function parameters gathered in `Collaborators`.
-/

/-- Addresses, symbols and protocol tags are plain strings in the source. -/
abbrev Addr := String

/-- Token descriptor, as read from the token registry
(fields used by `_request.ts`: `symbol`, `contractAddress`, `decimal`,
`precision`, `minTradeAmount`, `maxTradeAmount`). -/
structure Token where
  symbol : String
  contractAddress : Addr
  decimal : Nat
  precision : Nat
  minTradeAmount : ℚ
  maxTradeAmount : ℚ
deriving DecidableEq

/-- Per-token configuration entry (`tokenConfigs` item): a symbol together
with an optional `feeFactor` field; `none` models an absent field. -/
structure TokenConfig where
  symbol : String
  feeFactor : Option ℚ
deriving DecidableEq

/-- Source line 171: `const TRUNCATE_PRECISION = 6`. -/
def TRUNCATE_PRECISION : Nat := 6

/-- Source lines 173-175: `decimals < 8 ? TRUNCATE_PRECISION : 8`. -/
def findSuitablePrecision (decimals : Nat) : Nat :=
  if decimals < 8 then TRUNCATE_PRECISION else 8

/-- Truncation of a rational toward zero to an integer:
floor for nonnegative arguments, `-⌊-q⌋` (the ceiling) for negative ones. -/
def ratTrunc (q : ℚ) : ℤ :=
  if 0 ≤ q then ⌊q⌋ else -⌊-q⌋

/-- Modelled from the spec: `BigNumber.toFixed(dp)` as used by this
repository cuts a decimal to `dp` fractional digits; per the spec the cut
is truncation (round toward zero), "truncation (not rounding) is used
throughout". The BigNumber configuration lives outside `src/`. -/
def toFixedTrunc (q : ℚ) (dp : Nat) : ℚ :=
  (ratTrunc (q * 10 ^ dp) : ℚ) / 10 ^ dp

/-- Modelled from the spec: `fromUnitToDecimalBN` from `../utils`
(not in `src/`) scales a unit amount to integer base units,
"decimal amount × 10^decimals". -/
def fromUnitToDecimalBN (x : ℚ) (decimal : Nat) : ℚ :=
  x * 10 ^ decimal

/-- Result record of `extractAssetAmounts`. -/
structure AssetAmounts where
  makerAssetAmount : ℚ
  takerAssetAmount : ℚ
deriving DecidableEq

/-- Source lines 191-222, `extractAssetAmounts`: converts the requested
amount and the quoted rate into maker/taker amounts in base units.
`side` is the raw string of the query; the source compares `side === 'BUY'`
and treats everything else as the SELL branch. -/
def extractAssetAmounts (makerToken takerToken : Token) (side : String)
    (rate : ℚ) (amountBN : ℚ) : AssetAmounts :=
  if side = "BUY" then
    { makerAssetAmount :=
        fromUnitToDecimalBN (toFixedTrunc amountBN makerToken.precision) makerToken.decimal
      takerAssetAmount :=
        fromUnitToDecimalBN
          (toFixedTrunc (amountBN / rate) (findSuitablePrecision takerToken.decimal))
          takerToken.decimal }
  else
    { makerAssetAmount :=
        fromUnitToDecimalBN
          (toFixedTrunc (amountBN * rate) (findSuitablePrecision makerToken.decimal))
          makerToken.decimal
      takerAssetAmount :=
        fromUnitToDecimalBN (toFixedTrunc amountBN takerToken.precision) takerToken.decimal }

/-- Source lines 238-246, the fee-factor resolution inside
`getOrderAndFeeFactor`.
* `configFeeFactor` models `Number(config.feeFactor)`: `none` is a missing
  or non-numeric config value (`NaN`), `some c` a numeric one; the source
  applies `|| 10`, so `0` (falsy) also falls back to `10`.
* `tokenFeeFactor` models `foundTokenConfig?.feeFactor`; the source guard
  `if (foundTokenConfig?.feeFactor)` skips absent and zero (falsy) values.
* `feefactor` models the caller-supplied query value: `some q` is a truthy
  (non-empty) string parsing to the number `q`; `none` is an absent, empty
  or non-numeric (`NaN`) value, each of which leaves the previous value in
  place. A parsed value is used only when `0 ≤ q`. -/
def resolveFeeFactor (configFeeFactor : Option ℚ) (tokenFeeFactor : Option ℚ)
    (feefactor : Option ℚ) : ℚ :=
  let f0 : ℚ :=
    match configFeeFactor with
    | some c => if c = 0 then 10 else c
    | none => 10
  let f1 : ℚ :=
    match tokenFeeFactor with
    | some t => if t = 0 then f0 else t
    | none => f0
  match feefactor with
  | some q => if 0 ≤ q then q else f1
  | none => f1

/-- Spec-side fee-factor resolution, written directly from the amended
priority list: caller override if non-negative, else per-token override if
present and non-zero, else config default if present and non-zero, else 10.
Compared with `resolveFeeFactor` (the source embedding) in the C3 theorem. -/
def feeFactorPriority (configFeeFactor : Option ℚ) (tokenFeeFactor : Option ℚ)
    (feefactor : Option ℚ) : ℚ :=
  (((feefactor.filter (fun q => decide (0 ≤ q))).orElse
    (fun _ => tokenFeeFactor.filter (fun t => decide (t ≠ 0)))).orElse
    (fun _ => configFeeFactor.filter (fun c => decide (c ≠ 0)))).getD 10

/-- Modelled from the spec: JavaScript `String.prototype.toLowerCase()`
for the ASCII contract-address strings this system handles. -/
def toLowerCase (s : String) : String :=
  String.mk (s.data.map Char.toLower)

/-- Modelled from the spec: the designated native-asset sentinel address
(a constant of `../constants`, not in `src/`); its concrete value is
irrelevant to every claim, which only compare addresses against it. -/
def ETH_ADDRESS : Addr := "0x0000000000000000000000000000000000000000"

/-- Modelled from the spec: `FEE_RECIPIENT_ADDRESS` constant of
`../constants` (not in `src/`). -/
def FEE_RECIPIENT_ADDRESS : Addr := "0xB9E29984Fe50602E7a619662EBED4F90D93824C7"

/-- Modelled from the spec: `getWethAddrIfIsEth` from `../utils`
(not in `src/`): "substitute the wrapped-native-asset contract address for
the native asset wherever a token's contract address equals the system's
designated native sentinel". -/
def getWethAddrIfIsEth (address : Addr) (wethAddress : Addr) : Addr :=
  if address = ETH_ADDRESS then wethAddress else address

/-- Modelled from the spec: `assetDataUtils.encodeERC20AssetData` of the
`0x-v2-order-utils` collaborator "encodes an asset address into an
asset-data blob"; kept as an address-tagging function, no claim depends
on the encoding itself. -/
def encodeERC20AssetData (address : Addr) : String :=
  "ERC20Token:" ++ address

/-- Modelled from the spec: `getTokenByAddress(list, address)` from
`../utils` (not in `src/`): resolves a token descriptor, "fails if
absent" (a fatal lookup failure surfaced to the caller). -/
def getTokenByAddress (tokenList : List Token) (address : Addr) : Except String Token :=
  match tokenList.find? (fun t => toLowerCase t.contractAddress == toLowerCase address) with
  | some t => .ok t
  | none => .error ("token not found by address " ++ address)

/-- Marker-maker configuration snapshot
(`updaterStack.markerMakerConfigUpdater.cacheResult`).
`feeFactor` models `Number(config.feeFactor)`: `none` for a missing or
non-numeric value. -/
structure MMConfig where
  mmProxyContractAddress : Addr
  userProxyContractAddress : Addr
  tokenlonExchangeContractAddress : Addr
  exchangeContractAddress : Addr
  wethContractAddress : Addr
  feeFactor : Option ℚ
  orderExpirationSeconds : ℚ

/-- Protocol tags. `Protocol` is a string enum in the source's `types.ts`
(not in `src/`); the query's protocol field is a raw string at runtime,
so the embedding keeps `String` and names the five recognized tags. -/
def protocolAMMV1 : String := "AMMV1"

def protocolAMMV2 : String := "AMMV2"

def protocolPMMV5 : String := "PMMV5"

def protocolRFQV1 : String := "RFQV1"

def protocolRFQV2 : String := "RFQV2"

/-- The five recognized protocol tags of the dispatcher. -/
def recognizedProtocols : List String :=
  [protocolAMMV1, protocolAMMV2, protocolPMMV5, protocolRFQV1, protocolRFQV2]

/-- The normalized query (`QueryInterface` after the protocol default has
been applied). `feefactor` models the caller-supplied override as in
`resolveFeeFactor`. -/
structure Query where
  side : String
  amount : ℚ
  feefactor : Option ℚ
  baseAddress : Addr
  quoteAddress : Addr
  uniqId : String
  userAddr : Addr
  protocol : String

/-- The Order record assembled by `getOrderAndFeeFactor`
(`ExtendedZXOrder` restricted to the fields the source sets/uses). -/
structure Order where
  quoteId : String
  protocol : String
  makerAddress : Addr
  makerAssetAmount : ℚ
  makerAssetAddress : Addr
  makerAssetData : String
  makerFee : ℚ
  takerAddress : Addr
  takerAssetAmount : ℚ
  takerAssetAddress : Addr
  takerAssetData : String
  takerFee : ℚ
  senderAddress : Addr
  feeRecipientAddress : Addr
  expirationTimeSeconds : ℚ
  exchangeAddress : Addr
  feeFactor : ℚ
  makerWalletSignature : Option String := none
  payload : Option String := none
deriving DecidableEq

/-- Source lines 234-296, the body of `getOrderAndFeeFactor` after the
token lookups: resolve maker/taker tokens by side, resolve the fee factor,
compute asset amounts, substitute the wrapped-native address (except the
RFQV2 taker side) and assemble the order. `now` models `getTimestamp()`
(a read of the ambient clock in `../utils`). -/
def assembledOrder (query : Query) (rate : ℚ) (tokenConfigs : List TokenConfig)
    (config : MMConfig) (now : ℤ) (baseToken quoteToken : Token) : Order :=
  let makerToken := if query.side = "BUY" then baseToken else quoteToken
  let takerToken := if query.side = "BUY" then quoteToken else baseToken
  let foundTokenConfig := tokenConfigs.find? (fun t => t.symbol == makerToken.symbol)
  let fFactor := resolveFeeFactor config.feeFactor
    (foundTokenConfig.bind (fun t => t.feeFactor)) query.feefactor
  let amounts := extractAssetAmounts makerToken takerToken query.side rate query.amount
  let makerAssetAddress :=
    getWethAddrIfIsEth makerToken.contractAddress config.wethContractAddress
  let takerAssetAddress :=
    if query.protocol = protocolRFQV2 then takerToken.contractAddress
    else getWethAddrIfIsEth takerToken.contractAddress config.wethContractAddress
  { quoteId := query.uniqId
    protocol := query.protocol
    makerAddress := toLowerCase config.mmProxyContractAddress
    makerAssetAmount := amounts.makerAssetAmount
    makerAssetAddress := makerAssetAddress
    makerAssetData := encodeERC20AssetData makerAssetAddress
    makerFee := 0
    takerAddress := config.userProxyContractAddress
    takerAssetAmount := amounts.takerAssetAmount
    takerAssetAddress := takerAssetAddress
    takerAssetData := encodeERC20AssetData takerAssetAddress
    takerFee := 0
    senderAddress := toLowerCase config.tokenlonExchangeContractAddress
    feeRecipientAddress := toLowerCase FEE_RECIPIENT_ADDRESS
    expirationTimeSeconds := (now : ℚ) + config.orderExpirationSeconds
    exchangeAddress := toLowerCase config.exchangeContractAddress
    feeFactor := fFactor }

/-- The two token lookups of `getOrderAndFeeFactor` (source lines 232-233);
a missing token throws, everything after assembles the order above. -/
def getOrderAndFeeFactor (query : Query) (rate : ℚ) (tokenList : List Token)
    (tokenConfigs : List TokenConfig) (config : MMConfig) (now : ℤ) : Except String Order :=
  match getTokenByAddress tokenList query.baseAddress with
  | .error m => .error m
  | .ok baseToken =>
    match getTokenByAddress tokenList query.quoteAddress with
    | .error m => .error m
    | .ok quoteToken =>
      .ok (assembledOrder query rate tokenConfigs config now baseToken quoteToken)

/-- Source lines 299-301, `_getBaseTokenByAddress`: plain lookup of a
token by lower-cased address over the supplied list. -/
def _getBaseTokenByAddress (baseTokenAddr : Addr) (tokenList : List Token) : Option Token :=
  tokenList.find? (fun t => toLowerCase t.contractAddress == baseTokenAddr)

/-- Source line 303, `getBaseTokenByAddress = memoize(_getBaseTokenByAddress)`:
lodash `memoize` caches by the FIRST argument only (its default cache-key
resolver), for the lifetime of the module. The cache is made explicit as an
association list from first argument to stored result; a hit returns the
stored result without consulting the currently supplied token list. -/
def memoizedCall (cache : List (Addr × Option Token)) (baseTokenAddr : Addr)
    (tokenList : List Token) : Option Token × List (Addr × Option Token) :=
  match cache.lookup baseTokenAddr with
  | some v => (v, cache)
  | none =>
    let v := _getBaseTokenByAddress baseTokenAddr tokenList
    (v, (baseTokenAddr, v) :: cache)

/-- The raw query attached to the incoming request context: same fields as
`Query`, but `protocol` is optional (`none` models an absent key). -/
structure CtxQuery where
  side : String
  amount : ℚ
  feefactor : Option ℚ
  baseAddress : Addr
  quoteAddress : Addr
  uniqId : String
  userAddr : Addr
  protocol : Option String

/-- The request context (`ctx`), restricted to the data the pipeline reads;
the collaborator handles (`quoter`, `signer`, ...) live in `Collaborators`. -/
structure Ctx where
  query : CtxQuery

/-- Source lines 307-310: `{ protocol: Protocol.PMMV5, ...ctx.query }` —
the default protocol, overwritten by a protocol supplied in the request. -/
def mkReq (ctx : Ctx) : Query :=
  { side := ctx.query.side
    amount := ctx.query.amount
    feefactor := ctx.query.feefactor
    baseAddress := ctx.query.baseAddress
    quoteAddress := ctx.query.quoteAddress
    uniqId := ctx.query.uniqId
    userAddr := ctx.query.userAddr
    protocol := ctx.query.protocol.getD protocolPMMV5 }

/-- The rate body assembled by `requestMarketMaker` from the quoter's
price result (rate, bounds, prefixed quote id, optional payload, salt and
maker address). `constructQuoteResponse`/`addQuoteIdPrefix` live outside
`src/`, so the quoter collaborator returns this record directly. -/
structure RateBody where
  rate : ℚ
  minAmount : ℚ
  maxAmount : ℚ
  quoteId : String
  payload : Option String
  salt : Option ℚ
  makerAddress : Option Addr

/-- The successful pipeline result: the fields spread into the response
body, with `order` always set by the dispatch branch. -/
structure RespS where
  rate : ℚ
  minAmount : ℚ
  maxAmount : ℚ
  order : Order
deriving DecidableEq

/-- External collaborators of `newOrder`, abstracted as possibly-failing
functions. The builders' pass-through parameters that no claim touches
(signer handle, chain id, address-book entry, wallet type, permit type,
signing url) are absorbed into the abstract functions; the arguments the
dispatcher computes per call are kept: the assembled order, the payload /
maker address of the rate body, the wrapped-native address, the
lower-cased user address and the salt. -/
structure Collaborators where
  preprocessQuote : Query → Query
  validateRequest : Query → Option String
  validateNewOrderRequest : ℚ → String → Addr → Option String
  quoter : Query → Except String RateBody
  buildAMMV1Order : Order → Option Addr → Addr → Except String Order
  buildAMMV2Order : Order → Option String → Option Addr → Addr → Except String Order
  buildPMMV5SignedOrder : Order → Addr → Option ℚ → Except String Order
  buildRFQV1SignedOrder : Order → Addr → Option ℚ → Except String Order
  buildRFQV2SignedOrder : Order → Addr → Option ℚ → Except String Order

/-- Snapshot of the ambient state `newOrder` reads: config, token configs,
token list, the module-level memoize cache of `getBaseTokenByAddress`, and
the clock. -/
structure Env where
  config : MMConfig
  tokenConfigs : List TokenConfig
  tokenList : List Token
  memoCache : List (Addr × Option Token)
  now : ℤ

/-- The `ctx.body` object: `result`/`exchangeable` flags plus the optional
spread fields of the success response or the failure message. -/
structure CtxBody where
  result : Bool
  exchangeable : Bool
  rate : Option ℚ
  minAmount : Option ℚ
  maxAmount : Option ℚ
  order : Option Order
  message : Option String
deriving DecidableEq

/-- Source lines 407-411: `{ result: true, exchangeable: true, ...resp }`. -/
def successBody (rate minAmount maxAmount : ℚ) (order : Order) : CtxBody :=
  { result := true
    exchangeable := true
    rate := some rate
    minAmount := some minAmount
    maxAmount := some maxAmount
    order := some order
    message := none }

/-- Source lines 415-419: `{ result: false, exchangeable: false, message }`. -/
def failureBody (message : String) : CtxBody :=
  { result := false
    exchangeable := false
    rate := none
    minAmount := none
    maxAmount := none
    order := none
    message := some message }

/-- The JavaScript value `newOrder` returns: `resp` on success (line 412),
the bare error-message string on failure (line 420). The `bodyVal`
constructor is never produced by the embedding; it exists so the claim
"the return value is the response body object" is expressible. -/
inductive JSReturn where
  | respVal (rate minAmount maxAmount : ℚ) (order : Order)
  | strVal (message : String)
  | bodyVal (b : CtxBody)
deriving DecidableEq

/-- What a `newOrder` invocation leaves behind: the assigned `ctx.body`
and the function's return value. -/
structure NewOrderResult where
  body : CtxBody
  ret : JSReturn
deriving DecidableEq

/-- Source lines 332-402, the protocol dispatch `switch`. Returns the
`minAmount`/`maxAmount` to respond with and the built order. The AMM
branches first read the memoized base token and fail like the source does
(a TypeError on an undefined lookup) when it is absent; the default branch
throws `Unrecognized protocol`. -/
def dispatchOrder (c : Collaborators) (env : Env) (query : Query)
    (rateBody : RateBody) (order : Order) : Except String (ℚ × ℚ × Order) :=
  if query.protocol = protocolAMMV1 then
    match (memoizedCall env.memoCache (toLowerCase query.baseAddress) env.tokenList).1 with
    | none => .error "Cannot read properties of undefined (reading minTradeAmount)"
    | some baseToken =>
      match c.buildAMMV1Order order rateBody.makerAddress env.config.wethContractAddress with
      | .error m => .error m
      | .ok o => .ok (baseToken.minTradeAmount, baseToken.maxTradeAmount, o)
  else if query.protocol = protocolAMMV2 then
    match (memoizedCall env.memoCache (toLowerCase query.baseAddress) env.tokenList).1 with
    | none => .error "Cannot read properties of undefined (reading minTradeAmount)"
    | some baseToken =>
      match c.buildAMMV2Order order rateBody.payload rateBody.makerAddress
          env.config.wethContractAddress with
      | .error m => .error m
      | .ok o => .ok (baseToken.minTradeAmount, baseToken.maxTradeAmount, o)
  else if query.protocol = protocolPMMV5 then
    match c.buildPMMV5SignedOrder order (toLowerCase query.userAddr) rateBody.salt with
    | .error m => .error m
    | .ok o => .ok (rateBody.minAmount, rateBody.maxAmount, o)
  else if query.protocol = protocolRFQV1 then
    match c.buildRFQV1SignedOrder order (toLowerCase query.userAddr) rateBody.salt with
    | .error m => .error m
    | .ok o => .ok (rateBody.minAmount, rateBody.maxAmount, o)
  else if query.protocol = protocolRFQV2 then
    match c.buildRFQV2SignedOrder order (toLowerCase query.userAddr) rateBody.salt with
    | .error m => .error m
    | .ok o => .ok (rateBody.minAmount, rateBody.maxAmount, o)
  else
    .error ("Unrecognized protocol: " ++ query.protocol)

/-- Source lines 312-405, the `try` block of `newOrder` on the normalized
request: validations, market-maker quote, order assembly, dispatch, then
the dispatcher-owned stamping of `quoteId` and `protocol` (lines 404-405). -/
def newOrderRun (c : Collaborators) (env : Env) (req : Query) : Except String RespS :=
  let query := c.preprocessQuote req
  match c.validateRequest query with
  | some m => .error m
  | none =>
    match c.validateNewOrderRequest query.amount query.uniqId query.userAddr with
    | some m => .error m
    | none =>
      match c.quoter query with
      | .error m => .error m
      | .ok rateBody =>
        match getOrderAndFeeFactor query rateBody.rate env.tokenList env.tokenConfigs
            env.config env.now with
        | .error m => .error m
        | .ok order =>
          match dispatchOrder c env query rateBody order with
          | .error m => .error m
          | .ok (minA, maxA, built) =>
            .ok { rate := rateBody.rate
                  minAmount := minA
                  maxAmount := maxA
                  order := { built with quoteId := rateBody.quoteId, protocol := query.protocol } }

/-- The outer boundary of `newOrder` (lines 312-421) applied to an
already-normalized request: a success is wrapped as
`{result: true, exchangeable: true, ...resp}` with `resp` returned; any
thrown error is caught and wrapped as
`{result: false, exchangeable: false, message}` with `e.message` returned. -/
def newOrderOnQuery (c : Collaborators) (env : Env) (req : Query) : NewOrderResult :=
  match newOrderRun c env req with
  | .ok resp =>
    { body := successBody resp.rate resp.minAmount resp.maxAmount resp.order
      ret := JSReturn.respVal resp.rate resp.minAmount resp.maxAmount resp.order }
  | .error m =>
    { body := failureBody m
      ret := JSReturn.strVal m }

/-- Source lines 305-421, `newOrder`: apply the protocol default to the
raw query, then run the guarded pipeline. -/
def newOrder (c : Collaborators) (env : Env) (ctx : Ctx) : NewOrderResult :=
  newOrderOnQuery c env (mkReq ctx)

/-- A default order used only to read back the payload of a concrete
`Except` value in closed statements. -/
def defaultOrder : Order :=
  { quoteId := ""
    protocol := ""
    makerAddress := ""
    makerAssetAmount := 0
    makerAssetAddress := ""
    makerAssetData := ""
    makerFee := 0
    takerAddress := ""
    takerAssetAmount := 0
    takerAssetAddress := ""
    takerAssetData := ""
    takerFee := 0
    senderAddress := ""
    feeRecipientAddress := ""
    expirationTimeSeconds := 0
    exchangeAddress := ""
    feeFactor := 0 }

/-- Payload of a concrete `getOrderAndFeeFactor` result. -/
def okOrder (e : Except String Order) : Order :=
  match e with
  | .ok o => o
  | .error _ => defaultOrder

/-- Payload of a concrete `newOrderRun` result. -/
def respOf (e : Except String RespS) : RespS :=
  match e with
  | .ok r => r
  | .error _ => { rate := 0, minAmount := 0, maxAmount := 0, order := defaultOrder }

/-- Taker address of a concrete `getOrderAndFeeFactor` result. -/
def takerAddressOf (e : Except String Order) : Option Addr :=
  match e with
  | .ok o => some o.takerAddress
  | .error _ => none

/-- Fixture token `AAA` at address `0xa`. -/
def tkA : Token :=
  { symbol := "AAA", contractAddress := "0xa", decimal := 6, precision := 6,
    minTradeAmount := 1, maxTradeAmount := 100 }

/-- Fixture token `BBB` at address `0xb`. -/
def tkB : Token :=
  { symbol := "BBB", contractAddress := "0xb", decimal := 6, precision := 6,
    minTradeAmount := 2, maxTradeAmount := 200 }

/-- Fixture token sitting at the native-asset sentinel address. -/
def tkEth : Token :=
  { symbol := "ETH", contractAddress := ETH_ADDRESS, decimal := 18, precision := 6,
    minTradeAmount := 1, maxTradeAmount := 10 }

/-- A second descriptor at address `0xa`, as after a token-list refresh. -/
def tkA2 : Token :=
  { symbol := "AAA2", contractAddress := "0xa", decimal := 6, precision := 6,
    minTradeAmount := 5, maxTradeAmount := 500 }

/-- Fixture configuration; `userProxyContractAddress` deliberately carries
upper-case letters, as a checksummed address would. -/
def cfgEx : MMConfig :=
  { mmProxyContractAddress := "0xMM"
    userProxyContractAddress := "0xAB"
    tokenlonExchangeContractAddress := "0xTE"
    exchangeContractAddress := "0xEX"
    wethContractAddress := "0xweth"
    feeFactor := some 10
    orderExpirationSeconds := 600 }

/-- Fixture BUY query over `0xa`/`0xb` with protocol PMMV5. -/
def qBuy : Query :=
  { side := "BUY", amount := 1, feefactor := none, baseAddress := "0xa",
    quoteAddress := "0xb", uniqId := "uid-1", userAddr := "0xUSER",
    protocol := protocolPMMV5 }

/-- Fixture RFQV2 BUY query whose quote (taker) token is the native asset. -/
def qC4 : Query :=
  { side := "BUY", amount := 1, feefactor := none, baseAddress := "0xa",
    quoteAddress := ETH_ADDRESS, uniqId := "uid-2", userAddr := "0xUSER",
    protocol := protocolRFQV2 }

/-- Fixture rate body returned by the quoter collaborator. -/
def rbEx : RateBody :=
  { rate := 2, minAmount := 1 / 100, maxAmount := 50, quoteId := "MMSK-q-1",
    payload := none, salt := none, makerAddress := some "0xmaker" }

/-- Benign concrete collaborators: identity preprocessing, passing
validations, a fixed quote, builders that return the order unchanged. -/
def collabEx : Collaborators :=
  { preprocessQuote := fun q => q
    validateRequest := fun _ => none
    validateNewOrderRequest := fun _ _ _ => none
    quoter := fun _ => .ok rbEx
    buildAMMV1Order := fun o _ _ => .ok o
    buildAMMV2Order := fun o _ _ _ => .ok o
    buildPMMV5SignedOrder := fun o _ _ => .ok o
    buildRFQV1SignedOrder := fun o _ _ => .ok o
    buildRFQV2SignedOrder := fun o _ _ => .ok o }

/-- Collaborators whose request validation rejects every query. -/
def collabInvalid : Collaborators :=
  { collabEx with validateRequest := fun _ => some "err: invalid amount" }

/-- Collaborators whose PMMV5 builder overwrites the dispatcher-owned
`quoteId` and `protocol` fields. -/
def collabScribble : Collaborators :=
  { collabEx with
    buildPMMV5SignedOrder := fun o _ _ =>
      .ok { o with quoteId := "builder-id", protocol := "builder-protocol" } }

/-- Fixture environment snapshot with an empty memoize cache. -/
def envEx : Env :=
  { config := cfgEx, tokenConfigs := [], tokenList := [tkA, tkB],
    memoCache := [], now := 1700000000 }

/-- Fixture raw request context carrying an explicit PMMV5 protocol. -/
def ctxEx : Ctx :=
  { query :=
    { side := "BUY", amount := 1, feefactor := none, baseAddress := "0xa",
      quoteAddress := "0xb", uniqId := "uid-1", userAddr := "0xUSER",
      protocol := some protocolPMMV5 } }

/-- Fixture request context with an unrecognized protocol tag. -/
def ctxC7 : Ctx :=
  { query :=
    { side := "BUY", amount := 1, feefactor := none, baseAddress := "0xa",
      quoteAddress := "0xb", uniqId := "uid-1", userAddr := "0xUSER",
      protocol := some "FOO" } }

/-- Concrete assembled order of the C5 witness run. -/
def oC5 : Order :=
  okOrder (getOrderAndFeeFactor qBuy 2 [tkA, tkB] [] cfgEx 1700000000)

/-- Concrete assembled order of the C4 witness run (RFQV2, native taker). -/
def oC4 : Order :=
  okOrder (getOrderAndFeeFactor qC4 2 [tkA, tkEth] [] cfgEx 1700000000)

/-- Concrete assembled order reaching the dispatch of the C7 witness run. -/
def oC7 : Order :=
  okOrder (getOrderAndFeeFactor (collabEx.preprocessQuote (mkReq ctxC7)) rbEx.rate
    envEx.tokenList envEx.tokenConfigs envEx.config envEx.now)

/-- Concrete successful pipeline result of the C8 witness run. -/
def respC8 : RespS :=
  respOf (newOrderRun collabScribble envEx (mkReq ctxEx))

/-- Bridge: on nonnegative rationals, truncation toward zero is the floor. -/
theorem ratTrunc_eq_floor {q : ℚ} (h : 0 ≤ q) : ratTrunc q = ⌊q⌋ := by
  unfold ratTrunc
  exact if_pos h

theorem ratTrunc_le {q : ℚ} (h : 0 ≤ q) : (ratTrunc q : ℚ) ≤ q := by
  rw [ratTrunc_eq_floor h]
  exact Int.floor_le q

theorem ratTrunc_nonneg {q : ℚ} (h : 0 ≤ q) : 0 ≤ ratTrunc q := by
  rw [ratTrunc_eq_floor h]
  exact Int.floor_nonneg.mpr h

theorem toFixedTrunc_le {q : ℚ} (dp : Nat) (h : 0 ≤ q) : toFixedTrunc q dp ≤ q := by
  unfold toFixedTrunc
  have hp : (0 : ℚ) < 10 ^ dp := by positivity
  rw [div_le_iff₀ hp]
  exact ratTrunc_le (by positivity)

theorem toFixedTrunc_nonneg {q : ℚ} (dp : Nat) (h : 0 ≤ q) : 0 ≤ toFixedTrunc q dp := by
  unfold toFixedTrunc
  have hp : (0 : ℚ) < 10 ^ dp := by positivity
  have := ratTrunc_nonneg (q := q * 10 ^ dp) (by positivity)
  positivity

/-- Evaluation helper: `toFixedTrunc` at a concrete nonnegative rational,
given the integer `z` with `z ≤ q·10^dp < z + 1`. -/
theorem toFixedTrunc_eq {q : ℚ} {dp : Nat} {z : ℤ} (h0 : 0 ≤ q)
    (h1 : (z : ℚ) ≤ q * 10 ^ dp) (h2 : q * 10 ^ dp < z + 1) :
    toFixedTrunc q dp = (z : ℚ) / 10 ^ dp := by
  unfold toFixedTrunc
  rw [ratTrunc_eq_floor (by positivity), Int.floor_eq_iff.mpr ⟨h1, h2⟩]

example : toFixedTrunc (1 / 3) 6 = 333333 / 1000000 := by
  rw [toFixedTrunc_eq (z := 333333) (by norm_num) (by norm_num) (by norm_num)]
  norm_num
example : resolveFeeFactor (some 10) (some 25) (some 30) = 30 := by decide
example : resolveFeeFactor (some 10) (some 0) none = 10 := by decide
example : feeFactorPriority (some 10) (some 25) (some (-1)) = 25 := by decide
example : toLowerCase "0xAB" = "0xab" := by decide

/-- C1: `extractAssetAmounts` computes exactly: on BUY, the maker amount is
the requested amount truncated to the maker token's display precision and
scaled by `10 ^ decimals`, and the taker amount is `amount / rate`
truncated to `findSuitablePrecision (taker decimals)` and scaled; on SELL,
the maker amount is `amount * rate` truncated to
`findSuitablePrecision (maker decimals)` and scaled, and the taker amount
is the requested amount truncated to the taker precision and scaled; and
`findSuitablePrecision d` is 6 for `d < 8` and 8 otherwise. -/
theorem extract_asset_amounts_formula (mt tt : Token) (r a : ℚ) (d : Nat)
    (hr : 0 < r) :
    (extractAssetAmounts mt tt "BUY" r a).makerAssetAmount
        = toFixedTrunc a mt.precision * 10 ^ mt.decimal
    ∧ (extractAssetAmounts mt tt "BUY" r a).takerAssetAmount
        = toFixedTrunc (a / r) (findSuitablePrecision tt.decimal) * 10 ^ tt.decimal
    ∧ (extractAssetAmounts mt tt "SELL" r a).makerAssetAmount
        = toFixedTrunc (a * r) (findSuitablePrecision mt.decimal) * 10 ^ mt.decimal
    ∧ (extractAssetAmounts mt tt "SELL" r a).takerAssetAmount
        = toFixedTrunc a tt.precision * 10 ^ tt.decimal
    ∧ findSuitablePrecision d = (if d < 8 then 6 else 8) := by
  refine ⟨rfl, rfl, ?_, ?_, ?_⟩
  · simp [extractAssetAmounts, fromUnitToDecimalBN]
  · simp [extractAssetAmounts, fromUnitToDecimalBN]
  · simp [findSuitablePrecision, TRUNCATE_PRECISION]

/-- C1 witness: the formula evaluated at concrete tokens, rate 2, amount 1
and decimal count 7. -/
theorem extract_asset_amounts_formula_witness :
    0 < (2 : ℚ)
    ∧ ((extractAssetAmounts tkA tkEth "BUY" 2 1).makerAssetAmount
        = toFixedTrunc 1 tkA.precision * 10 ^ tkA.decimal
      ∧ (extractAssetAmounts tkA tkEth "BUY" 2 1).takerAssetAmount
        = toFixedTrunc (1 / 2) (findSuitablePrecision tkEth.decimal) * 10 ^ tkEth.decimal
      ∧ (extractAssetAmounts tkA tkEth "SELL" 2 1).makerAssetAmount
        = toFixedTrunc (1 * 2) (findSuitablePrecision tkA.decimal) * 10 ^ tkA.decimal
      ∧ (extractAssetAmounts tkA tkEth "SELL" 2 1).takerAssetAmount
        = toFixedTrunc 1 tkEth.precision * 10 ^ tkEth.decimal
      ∧ findSuitablePrecision 7 = (if 7 < 8 then 6 else 8)) :=
  ⟨by norm_num, extract_asset_amounts_formula tkA tkEth 2 1 7 (by norm_num)⟩

/-- C2 counterexample: at side BUY with rate 3 and amount 1 over two
6-decimal tokens, the taker amount truncates to 0.333333 while the maker
amount stays 1, so the maker asset allocated strictly exceeds
`rate * takerAssetAmount`: the effective maker-per-taker rate exceeds 3,
contradicting "the computed amounts never exceed what the rate implies". -/
theorem buy_truncation_direction_cex :
    3 * (extractAssetAmounts tkA tkB "BUY" 3 1).takerAssetAmount
      < (extractAssetAmounts tkA tkB "BUY" 3 1).makerAssetAmount := by
  have h1 : toFixedTrunc (1 / 3 : ℚ) 6 = ((333333 : ℤ) : ℚ) / 10 ^ 6 :=
    toFixedTrunc_eq (by norm_num) (by norm_num) (by norm_num)
  have h2 : toFixedTrunc (1 : ℚ) 6 = ((1000000 : ℤ) : ℚ) / 10 ^ 6 :=
    toFixedTrunc_eq (by norm_num) (by norm_num) (by norm_num)
  simp only [extractAssetAmounts, fromUnitToDecimalBN, findSuitablePrecision,
    TRUNCATE_PRECISION, tkA, tkB]
  norm_num [h1, h2]

/-- C2 (amended): on BUY with positive rate and nonnegative amount the cut
is truncation toward zero, so each computed base-unit amount never exceeds
its un-truncated ideal (`maker ≤ a·10^dm`, `taker ≤ (a/r)·10^dt`), and the
taker payment never exceeds what rate `r` requires for the requested
amount (`r · taker ≤ a·10^dt`, i.e. the implied rate `a / taker` is never
below `r`); the original direction — that the effective maker-per-taker
rate never exceeds `r` — fails, see the counterexample. -/
theorem buy_truncation_direction (mt tt : Token) (r a : ℚ)
    (hr : 0 < r) (ha : 0 ≤ a) :
    (extractAssetAmounts mt tt "BUY" r a).makerAssetAmount ≤ a * 10 ^ mt.decimal
    ∧ (extractAssetAmounts mt tt "BUY" r a).takerAssetAmount ≤ a / r * 10 ^ tt.decimal
    ∧ r * (extractAssetAmounts mt tt "BUY" r a).takerAssetAmount ≤ a * 10 ^ tt.decimal
    ∧ 0 ≤ (extractAssetAmounts mt tt "BUY" r a).makerAssetAmount
    ∧ 0 ≤ (extractAssetAmounts mt tt "BUY" r a).takerAssetAmount := by
  have hq : (0 : ℚ) ≤ a / r := div_nonneg ha hr.le
  have hmt : (0 : ℚ) ≤ 10 ^ mt.decimal := by positivity
  have htt : (0 : ℚ) ≤ 10 ^ tt.decimal := by positivity
  have hm : (extractAssetAmounts mt tt "BUY" r a).makerAssetAmount
      = toFixedTrunc a mt.precision * 10 ^ mt.decimal := rfl
  have ht : (extractAssetAmounts mt tt "BUY" r a).takerAssetAmount
      = toFixedTrunc (a / r) (findSuitablePrecision tt.decimal) * 10 ^ tt.decimal := rfl
  refine ⟨?_, ?_, ?_, ?_, ?_⟩
  · rw [hm]
    exact mul_le_mul_of_nonneg_right (toFixedTrunc_le _ ha) hmt
  · rw [ht]
    exact mul_le_mul_of_nonneg_right (toFixedTrunc_le _ hq) htt
  · rw [ht]
    have step : r * (toFixedTrunc (a / r) (findSuitablePrecision tt.decimal) * 10 ^ tt.decimal)
        ≤ r * (a / r * 10 ^ tt.decimal) :=
      mul_le_mul_of_nonneg_left
        (mul_le_mul_of_nonneg_right (toFixedTrunc_le _ hq) htt) hr.le
    have cancel : r * (a / r * 10 ^ tt.decimal) = a * 10 ^ tt.decimal := by
      field_simp
    rw [cancel] at step
    exact step
  · rw [hm]
    exact mul_nonneg (toFixedTrunc_nonneg _ ha) hmt
  · rw [ht]
    exact mul_nonneg (toFixedTrunc_nonneg _ hq) htt

/-- C2 witness: the amended bounds evaluated at rate 3, amount 1. -/
theorem buy_truncation_direction_witness :
    (0 < (3 : ℚ) ∧ (0 : ℚ) ≤ 1)
    ∧ ((extractAssetAmounts tkA tkB "BUY" 3 1).makerAssetAmount ≤ 1 * 10 ^ tkA.decimal
      ∧ (extractAssetAmounts tkA tkB "BUY" 3 1).takerAssetAmount ≤ 1 / 3 * 10 ^ tkB.decimal
      ∧ 3 * (extractAssetAmounts tkA tkB "BUY" 3 1).takerAssetAmount ≤ 1 * 10 ^ tkB.decimal
      ∧ 0 ≤ (extractAssetAmounts tkA tkB "BUY" 3 1).makerAssetAmount
      ∧ 0 ≤ (extractAssetAmounts tkA tkB "BUY" 3 1).takerAssetAmount) :=
  ⟨⟨by norm_num, by norm_num⟩, buy_truncation_direction tkA tkB 3 1 (by norm_num) (by norm_num)⟩

/-- C3 counterexample: a per-maker-token configured fee factor of 0 is
present but falsy, so the source keeps the config default 10 instead of
using it — the claimed "per-token override is used if present" fails. -/
theorem fee_factor_priority_cex :
    resolveFeeFactor (some 10) (some 0) none = 10
    ∧ ¬ resolveFeeFactor (some 10) (some 0) none = 0 := by
  exact ⟨by decide, by decide⟩

/-- C3 (amended): fee factor resolution follows the priority list with the
source's truthiness guards: the caller override wins whenever it is
supplied (non-empty, parseable) and non-negative; otherwise a present and
NON-ZERO per-token override wins; otherwise a present and non-zero config
default; otherwise the fallback 10. The three instances of the claim hold. -/
theorem fee_factor_priority_resolution (u v w : Option ℚ) :
    resolveFeeFactor u v w = feeFactorPriority u v w
    ∧ resolveFeeFactor (some 10) (some 25) (some 30) = 30
    ∧ resolveFeeFactor (some 10) (some 25) (some (-1)) = 25
    ∧ resolveFeeFactor (some 10) none none = 10 := by
  refine ⟨?_, by decide, by decide, by decide⟩
  rcases u with _ | cv <;> rcases v with _ | tv <;> rcases w with _ | qv <;>
    simp only [resolveFeeFactor, feeFactorPriority, Option.filter, Option.orElse,
      Option.getD, decide_eq_true_eq] <;>
    split_ifs <;> simp_all

/-- C9 counterexample: after the first call caches address `0xa` against
the old list, a second call with the same address and a refreshed list
returns the stale descriptor, not the plain lookup over the new list. -/
theorem memoized_base_token_lookup_cex :
    (memoizedCall (memoizedCall [] "0xa" [tkA]).2 "0xa" [tkA2]).1
      ≠ _getBaseTokenByAddress "0xa" [tkA2] := by
  decide

/-- C9 (amended): the memoized lookup equals the stored result when the
(lower-cased) address is already cached — even if the supplied token list
has changed — and equals the plain lookup `_getBaseTokenByAddress` over
the currently supplied list exactly when the address is not cached. -/
theorem memoized_base_token_lookup (cache : List (Addr × Option Token))
    (addr : Addr) (tokenList : List Token) :
    (memoizedCall cache addr tokenList).1
      = (match cache.lookup addr with
         | some v => v
         | none => _getBaseTokenByAddress addr tokenList) := by
  unfold memoizedCall
  cases h : cache.lookup addr <;> simp [h]

/-- C10: the incoming request's protocol defaults to PMMV5 when absent and
is taken from the request when supplied, before the normalized query is
validated and dispatched (`newOrder` runs on exactly `mkReq ctx`). -/
theorem default_protocol_pmmv5 (ctx : Ctx) (c : Collaborators) (env : Env) :
    (mkReq ctx).protocol = ctx.query.protocol.getD protocolPMMV5
    ∧ newOrder c env ctx = newOrderOnQuery c env (mkReq ctx)
    ∧ (mkReq { query := { ctx.query with protocol := none } }).protocol = protocolPMMV5
    ∧ ∀ p : String,
        (mkReq { query := { ctx.query with protocol := some p } }).protocol = p :=
  ⟨rfl, rfl, rfl, fun _ => rfl⟩

/-- Inversion of a successful `getOrderAndFeeFactor`: the produced order is
the assembled record over the two looked-up tokens. -/
theorem getOrderAndFeeFactor_ok {query : Query} {rate : ℚ} {tokenList : List Token}
    {tokenConfigs : List TokenConfig} {config : MMConfig} {now : ℤ}
    {base quote : Token} {o : Order}
    (hb : getTokenByAddress tokenList query.baseAddress = .ok base)
    (hq : getTokenByAddress tokenList query.quoteAddress = .ok quote)
    (ho : getOrderAndFeeFactor query rate tokenList tokenConfigs config now = .ok o) :
    o = assembledOrder query rate tokenConfigs config now base quote := by
  unfold getOrderAndFeeFactor at ho
  rw [hb, hq] at ho
  injection ho with h
  exact h.symm

/-- C4: the wrapped-native address is substituted for a token sitting at
the native sentinel on the maker side and on the taker side independently,
except that an RFQV2 order's taker asset address is always the raw taker
token contract address; every other protocol tag gets the taker-side
substitution. -/
theorem rfqv2_taker_asset_address (query : Query) (rate : ℚ) (tokenList : List Token)
    (tokenConfigs : List TokenConfig) (config : MMConfig) (now : ℤ)
    (base quote : Token) (o : Order)
    (hb : getTokenByAddress tokenList query.baseAddress = .ok base)
    (hq : getTokenByAddress tokenList query.quoteAddress = .ok quote)
    (ho : getOrderAndFeeFactor query rate tokenList tokenConfigs config now = .ok o) :
    o.makerAssetAddress =
      (if (if query.side = "BUY" then base else quote).contractAddress = ETH_ADDRESS
       then config.wethContractAddress
       else (if query.side = "BUY" then base else quote).contractAddress)
    ∧ o.takerAssetAddress =
      (if query.protocol = protocolRFQV2
       then (if query.side = "BUY" then quote else base).contractAddress
       else if (if query.side = "BUY" then quote else base).contractAddress = ETH_ADDRESS
         then config.wethContractAddress
         else (if query.side = "BUY" then quote else base).contractAddress) := by
  obtain rfl := getOrderAndFeeFactor_ok hb hq ho
  exact ⟨rfl, rfl⟩

/-- C4 witness: an RFQV2 BUY order whose taker (quote) token sits at the
native sentinel keeps the raw taker asset address while the maker side
still goes through the substitution. -/
theorem rfqv2_taker_asset_address_witness :
    getTokenByAddress [tkA, tkEth] qC4.baseAddress = .ok tkA
    ∧ getTokenByAddress [tkA, tkEth] qC4.quoteAddress = .ok tkEth
    ∧ getOrderAndFeeFactor qC4 2 [tkA, tkEth] [] cfgEx 1700000000 = .ok oC4
    ∧ (oC4.makerAssetAddress =
        (if (if qC4.side = "BUY" then tkA else tkEth).contractAddress = ETH_ADDRESS
         then cfgEx.wethContractAddress
         else (if qC4.side = "BUY" then tkA else tkEth).contractAddress)
      ∧ oC4.takerAssetAddress =
        (if qC4.protocol = protocolRFQV2
         then (if qC4.side = "BUY" then tkEth else tkA).contractAddress
         else if (if qC4.side = "BUY" then tkEth else tkA).contractAddress = ETH_ADDRESS
           then cfgEx.wethContractAddress
           else (if qC4.side = "BUY" then tkEth else tkA).contractAddress))
    ∧ oC4.takerAssetAddress = ETH_ADDRESS :=
  ⟨rfl, rfl, rfl,
    rfqv2_taker_asset_address qC4 2 [tkA, tkEth] [] cfgEx 1700000000 tkA tkEth oC4
      rfl rfl rfl,
    rfl⟩

/-- C5 counterexample: `takerAddress` is copied verbatim from the config's
`userProxyContractAddress` (`0xAB` here), which is not lower-case — the
claim that every address field is returned lower-case fails. -/
theorem order_address_casing_cex :
    takerAddressOf (getOrderAndFeeFactor qBuy 2 [tkA, tkB] [] cfgEx 1700000000)
        = some "0xAB"
    ∧ toLowerCase "0xAB" ≠ "0xAB" :=
  ⟨rfl, by decide⟩

/-- C5 (amended): of the Order's address fields, `makerAddress`,
`senderAddress`, `feeRecipientAddress` and `exchangeAddress` are always
lower-cased; `takerAddress` is the config's `userProxyContractAddress`
verbatim (and the asset addresses are the raw token / wrapped-native
addresses), so those are lower-case only when their sources are. -/
theorem order_address_casing (query : Query) (rate : ℚ) (tokenList : List Token)
    (tokenConfigs : List TokenConfig) (config : MMConfig) (now : ℤ) (o : Order)
    (ho : getOrderAndFeeFactor query rate tokenList tokenConfigs config now = .ok o) :
    o.makerAddress = toLowerCase config.mmProxyContractAddress
    ∧ o.senderAddress = toLowerCase config.tokenlonExchangeContractAddress
    ∧ o.feeRecipientAddress = toLowerCase FEE_RECIPIENT_ADDRESS
    ∧ o.exchangeAddress = toLowerCase config.exchangeContractAddress
    ∧ o.takerAddress = config.userProxyContractAddress := by
  unfold getOrderAndFeeFactor at ho
  cases hb : getTokenByAddress tokenList query.baseAddress with
  | error m =>
    rw [hb] at ho
    exact absurd ho (by simp)
  | ok base =>
    rw [hb] at ho
    cases hq : getTokenByAddress tokenList query.quoteAddress with
    | error m =>
      rw [hq] at ho
      exact absurd ho (by simp)
    | ok quote =>
      rw [hq] at ho
      injection ho with h
      subst h
      exact ⟨rfl, rfl, rfl, rfl, rfl⟩

/-- C5 witness: the four lower-cased fields and the verbatim taker address
on a concrete successful run. -/
theorem order_address_casing_witness :
    getOrderAndFeeFactor qBuy 2 [tkA, tkB] [] cfgEx 1700000000 = .ok oC5
    ∧ (oC5.makerAddress = toLowerCase cfgEx.mmProxyContractAddress
      ∧ oC5.senderAddress = toLowerCase cfgEx.tokenlonExchangeContractAddress
      ∧ oC5.feeRecipientAddress = toLowerCase FEE_RECIPIENT_ADDRESS
      ∧ oC5.exchangeAddress = toLowerCase cfgEx.exchangeContractAddress
      ∧ oC5.takerAddress = cfgEx.userProxyContractAddress) :=
  ⟨rfl, order_address_casing qBuy 2 [tkA, tkB] [] cfgEx 1700000000 oC5 rfl⟩

/-- C6 counterexample: on a failing request the caught error sets the
uniform failure body, but the function's return value is the bare message
string (`return e.message`), not the response body object — the claim
that the caller-visible return value is always the response object fails. -/
theorem new_order_response_boundary_cex :
    (newOrder collabInvalid envEx ctxEx).body = failureBody "err: invalid amount"
    ∧ (newOrder collabInvalid envEx ctxEx).ret = JSReturn.strVal "err: invalid amount"
    ∧ (newOrder collabInvalid envEx ctxEx).ret
        ≠ JSReturn.bodyVal (newOrder collabInvalid envEx ctxEx).body :=
  ⟨rfl, rfl, by decide⟩

/-- C6 (amended): no exception escapes `newOrder`: every internal failure
is caught and sets `ctx.body` to the uniform failure object
`{result: false, exchangeable: false, message}`, and every success sets
`ctx.body` to `{result: true, exchangeable: true, rate, minAmount,
maxAmount, order}`; the function's RETURN value, however, is the bare
`resp` object on success and the error message string on failure — the
uniform body is caller-visible through `ctx.body`, not the return value. -/
theorem new_order_response_boundary (c : Collaborators) (env : Env) (ctx : Ctx) :
    (newOrder c env ctx).body =
      (match newOrderRun c env (mkReq ctx) with
       | .ok resp => successBody resp.rate resp.minAmount resp.maxAmount resp.order
       | .error m => failureBody m)
    ∧ (newOrder c env ctx).ret =
      (match newOrderRun c env (mkReq ctx) with
       | .ok resp => JSReturn.respVal resp.rate resp.minAmount resp.maxAmount resp.order
       | .error m => JSReturn.strVal m) := by
  cases hrun : newOrderRun c env (mkReq ctx) with
  | error m => simp [newOrder, newOrderOnQuery, hrun]
  | ok resp => simp [newOrder, newOrderOnQuery, hrun]

/-- C7: a request whose normalized protocol tag is none of AMMV1, AMMV2,
PMMV5, RFQV1, RFQV2 and that reaches the dispatch (validations pass, the
quoter and the order assembly succeed) ends in the uniform failure body
with the message naming the unrecognized protocol and no order field set —
the dispatch never falls through to a builder or signer. -/
theorem unrecognized_protocol_failure (c : Collaborators) (env : Env) (ctx : Ctx)
    (rb : RateBody) (o : Order)
    (hp : (c.preprocessQuote (mkReq ctx)).protocol ∉ recognizedProtocols)
    (h1 : c.validateRequest (c.preprocessQuote (mkReq ctx)) = none)
    (h2 : c.validateNewOrderRequest (c.preprocessQuote (mkReq ctx)).amount
        (c.preprocessQuote (mkReq ctx)).uniqId
        (c.preprocessQuote (mkReq ctx)).userAddr = none)
    (h3 : c.quoter (c.preprocessQuote (mkReq ctx)) = .ok rb)
    (h4 : getOrderAndFeeFactor (c.preprocessQuote (mkReq ctx)) rb.rate env.tokenList
        env.tokenConfigs env.config env.now = .ok o) :
    (newOrder c env ctx).body
      = failureBody ("Unrecognized protocol: " ++ (c.preprocessQuote (mkReq ctx)).protocol)
    ∧ (newOrder c env ctx).body.result = false
    ∧ (newOrder c env ctx).body.exchangeable = false
    ∧ (newOrder c env ctx).body.order = none := by
  simp only [recognizedProtocols, List.mem_cons, List.mem_singleton, List.not_mem_nil,
    or_false, not_or] at hp
  obtain ⟨n1, n2, n3, n4, n5⟩ := hp
  have hbody : (newOrder c env ctx).body
      = failureBody ("Unrecognized protocol: " ++ (c.preprocessQuote (mkReq ctx)).protocol) := by
    simp only [newOrder, newOrderOnQuery, newOrderRun, h1, h2, h3, h4, dispatchOrder,
      if_neg n1, if_neg n2, if_neg n3, if_neg n4, if_neg n5]
  exact ⟨hbody, by rw [hbody]; rfl, by rw [hbody]; rfl, by rw [hbody]; rfl⟩

/-- C7 witness: protocol tag `FOO` with passing validations, a successful
quote and a successful order assembly ends in the unrecognized-protocol
failure with no order. -/
theorem unrecognized_protocol_failure_witness :
    ((collabEx.preprocessQuote (mkReq ctxC7)).protocol ∉ recognizedProtocols
      ∧ collabEx.validateRequest (collabEx.preprocessQuote (mkReq ctxC7)) = none
      ∧ collabEx.validateNewOrderRequest (collabEx.preprocessQuote (mkReq ctxC7)).amount
          (collabEx.preprocessQuote (mkReq ctxC7)).uniqId
          (collabEx.preprocessQuote (mkReq ctxC7)).userAddr = none
      ∧ collabEx.quoter (collabEx.preprocessQuote (mkReq ctxC7)) = .ok rbEx
      ∧ getOrderAndFeeFactor (collabEx.preprocessQuote (mkReq ctxC7)) rbEx.rate
          envEx.tokenList envEx.tokenConfigs envEx.config envEx.now = .ok oC7)
    ∧ ((newOrder collabEx envEx ctxC7).body
        = failureBody
            ("Unrecognized protocol: " ++ (collabEx.preprocessQuote (mkReq ctxC7)).protocol)
      ∧ (newOrder collabEx envEx ctxC7).body.result = false
      ∧ (newOrder collabEx envEx ctxC7).body.exchangeable = false
      ∧ (newOrder collabEx envEx ctxC7).body.order = none) :=
  ⟨⟨by decide, rfl, rfl, rfl, rfl⟩,
    unrecognized_protocol_failure collabEx envEx ctxC7 rbEx oC7
      (by decide) rfl rfl rfl rfl⟩

/-- C8: after a successful dispatch branch the resulting order's
`protocol` equals the normalized query's protocol and its `quoteId` equals
the quote's id, regardless of what the builder set in those fields, and
the success body wraps exactly this order. -/
theorem dispatcher_stamps_quote_id_and_protocol (c : Collaborators) (env : Env)
    (ctx : Ctx) (rb : RateBody) (resp : RespS)
    (h3 : c.quoter (c.preprocessQuote (mkReq ctx)) = .ok rb)
    (hrun : newOrderRun c env (mkReq ctx) = .ok resp) :
    resp.order.protocol = (c.preprocessQuote (mkReq ctx)).protocol
    ∧ resp.order.quoteId = rb.quoteId
    ∧ (newOrder c env ctx).body
        = successBody resp.rate resp.minAmount resp.maxAmount resp.order := by
  have hbody : (newOrder c env ctx).body
      = successBody resp.rate resp.minAmount resp.maxAmount resp.order := by
    simp [newOrder, newOrderOnQuery, hrun]
  have hkey : resp.order.protocol = (c.preprocessQuote (mkReq ctx)).protocol
      ∧ resp.order.quoteId = rb.quoteId := by
    simp only [newOrderRun, h3] at hrun
    cases hv1 : c.validateRequest (c.preprocessQuote (mkReq ctx)) with
    | some m => rw [hv1] at hrun; exact absurd hrun (by simp)
    | none =>
      cases hv2 : c.validateNewOrderRequest (c.preprocessQuote (mkReq ctx)).amount
          (c.preprocessQuote (mkReq ctx)).uniqId
          (c.preprocessQuote (mkReq ctx)).userAddr with
      | some m => rw [hv1, hv2] at hrun; exact absurd hrun (by simp)
      | none =>
        cases hgo : getOrderAndFeeFactor (c.preprocessQuote (mkReq ctx)) rb.rate
            env.tokenList env.tokenConfigs env.config env.now with
        | error m => rw [hv1, hv2, hgo] at hrun; exact absurd hrun (by simp)
        | ok order =>
          rw [hv1, hv2, hgo] at hrun
          dsimp only at hrun
          cases hdo : dispatchOrder c env (c.preprocessQuote (mkReq ctx)) rb order with
          | error m => rw [hdo] at hrun; exact absurd hrun (by simp)
          | ok p =>
            obtain ⟨mn, mx, built⟩ := p
            rw [hdo] at hrun
            dsimp only at hrun
            injection hrun with h
            subst h
            exact ⟨rfl, rfl⟩
  exact ⟨hkey.1, hkey.2, hbody⟩

/-- C8 witness: a PMMV5 builder that scribbles over `quoteId` and
`protocol` is overridden by the dispatcher's stamping. -/
theorem dispatcher_stamps_quote_id_and_protocol_witness :
    (collabScribble.quoter (collabScribble.preprocessQuote (mkReq ctxEx)) = .ok rbEx
      ∧ newOrderRun collabScribble envEx (mkReq ctxEx) = .ok respC8)
    ∧ (respC8.order.protocol = (collabScribble.preprocessQuote (mkReq ctxEx)).protocol
      ∧ respC8.order.quoteId = rbEx.quoteId
      ∧ (newOrder collabScribble envEx ctxEx).body
          = successBody respC8.rate respC8.minAmount respC8.maxAmount respC8.order) :=
  ⟨⟨rfl, rfl⟩,
    dispatcher_stamps_quote_id_and_protocol collabScribble envEx ctxEx rbEx respC8
      rfl rfl⟩
